import Mathlib

/-!
Verification of the authentication/token lifecycle subsystem of a
Strava MCP server (modules `tokens.py`, `oauth.py`, `server.py`).

The embedding is shallow: Python dicts become association lists with
first-match lookup, thread-guarded global state becomes explicit state
passing, exceptions become `Except`, the wall clock and the network
become explicit parameters (an exchange/refresh oracle), and Python
floats used as Unix timestamps become `Rat` (token module) or `Int`
(state-TTL module, where only integer arithmetic occurs).
-/

/-- Decidable equality for `Except`, so concrete runs of the embedded
fallible code can be checked by `decide`. -/
instance {ε : Type} {α : Type} [DecidableEq ε] [DecidableEq α] :
    DecidableEq (Except ε α) := fun x y =>
  match x, y with
  | Except.ok a, Except.ok b =>
    if h : a = b then Decidable.isTrue (by rw [h])
    else Decidable.isFalse (by intro hc; cases hc; exact h rfl)
  | Except.error a, Except.error b =>
    if h : a = b then Decidable.isTrue (by rw [h])
    else Decidable.isFalse (by intro hc; cases hc; exact h rfl)
  | Except.ok _, Except.error _ => Decidable.isFalse (by intro hc; cases hc)
  | Except.error _, Except.ok _ => Decidable.isFalse (by intro hc; cases hc)

namespace StravaMCP

/-! ## tokens.py — token storage and expiry -/

/-- A Python value stored in a token dictionary: a string or a numeric
timestamp (Python float, embedded as `Rat`). -/
inductive TokVal where
  | str (s : String)
  | num (q : Rat)
deriving DecidableEq, Repr

/-- A Python dict such as `TokenDict`, as an association list with
first-match lookup (keys are unique in a dict, which this respects). -/
abbrev TokenDict := List (String × TokVal)

/-- `d[k]`-style lookup: first binding of key `k`, if any. -/
def lookupKey : TokenDict → String → Option TokVal
  | [], _ => none
  | (k, v) :: rest, key => if k = key then some v else lookupKey rest key

/-- A Python exception raised by dict access or by a type confusion. -/
inductive PyErr where
  | keyError (k : String)
  | typeError
deriving DecidableEq, Repr

/-- `load_tokens`: returns a copy of the stored dict, or `None` when the
module-level `_tokens` is falsy (`None` or the empty dict), mirroring
`dict(_tokens) if _tokens else None`. -/
def load_tokens (store : Option TokenDict) : Option TokenDict :=
  match store with
  | none => none
  | some d => if d.isEmpty then none else some d

/-- `save_tokens`: `_tokens = dict(tokens)` — replaces the stored set
wholesale with a copy of the argument. -/
def save_tokens (tokens : TokenDict) (_store : Option TokenDict) : Option TokenDict :=
  some tokens

/-- `delete_tokens`: `_tokens = None`. -/
def delete_tokens (_store : Option TokenDict) : Option TokenDict :=
  none

/-- `is_token_expired`: `tokens["expires_at"] < datetime.now().timestamp()`,
with the clock made an explicit `now` argument.  The subscript raises
`KeyError` when the key is absent; comparing a string with a float raises
`TypeError`. -/
def is_token_expired (tokens : TokenDict) (now : Rat) : Except PyErr Bool :=
  match lookupKey tokens "expires_at" with
  | none => Except.error (PyErr.keyError "expires_at")
  | some (TokVal.str _) => Except.error PyErr.typeError
  | some (TokVal.num e) => Except.ok (decide (e < now))

/-- The spec's TokenSet validity invariant: all three fields present and
non-empty (the expiry a number). -/
def validTokenSet (t : TokenDict) : Bool :=
  (match lookupKey t "access_token" with
   | some (TokVal.str s) => s != ""
   | _ => false)
  && (match lookupKey t "refresh_token" with
      | some (TokVal.str s) => s != ""
      | _ => false)
  && (match lookupKey t "expires_at" with
      | some (TokVal.num _) => true
      | _ => false)

/-- A provider token response (the three fields
`token_response_to_dict` extracts). -/
structure TokenResponse where
  access_token : String
  refresh_token : String
  expires_at : Rat
deriving DecidableEq, Repr

/-- `token_response_to_dict`: builds the stored dict from a provider
token response. -/
def token_response_to_dict (tr : TokenResponse) : TokenDict :=
  [("access_token", TokVal.str tr.access_token),
   ("refresh_token", TokVal.str tr.refresh_token),
   ("expires_at", TokVal.num tr.expires_at)]

/-- The load-mutate-reload experiment: a caller loads a copy of the
stored set, mutates its local copy with `f`, and a later `load_tokens`
observes the store.  `load_tokens` returns `dict(_tokens)` — a copy —
so the caller's mutation acts on the copy only and the store variable is
untouched; the pair is (the caller's mutated local value, what a later
load returns). -/
def mutate_copy_then_reload (store : Option TokenDict) (f : TokenDict → TokenDict) :
    Option TokenDict × Option TokenDict :=
  (Option.map f (load_tokens store), load_tokens store)

theorem validTokenSet_ne_nil (t : TokenDict) (h : validTokenSet t = true) : t ≠ [] := by
  intro hnil
  subst hnil
  simp [validTokenSet, lookupKey] at h

/-! ## oauth.py — CSRF pending-state tracker

`_pending_states : dict[str, float]` maps a state token to its creation
timestamp; the lock-guarded global dict becomes an explicit association
list threaded through `generate`/`validate`, and `time.time()` becomes
an explicit `now : Int` argument (only integer arithmetic occurs). The
random `secrets.token_urlsafe(32)` output is abstracted as a `token`
argument to `generate_oauth_state`. -/

/-- The pending-state dict: state token to creation timestamp. -/
abbrev StateStore := List (String × Int)

def STATE_TTL_SECONDS : Int := 600

/-- First-match lookup in the pending-state dict. -/
def lookupState : StateStore → String → Option Int
  | [], _ => none
  | (k, v) :: rest, key => if k = key then some v else lookupState rest key

/-- `del _pending_states[k]`: remove the binding of key `k`. -/
def eraseKey (s : StateStore) (k : String) : StateStore :=
  s.filter (fun p => !(p.1 == k))

/-- `_pending_states[k] = v`: dict assignment, as replace-or-append on
the association list (same map; binding order is immaterial here). -/
def setKey (s : StateStore) (k : String) (v : Int) : StateStore :=
  eraseKey s k ++ [(k, v)]

/-- `_cleanup_expired_states`: delete every entry whose timestamp is
below `cutoff = time.time() - STATE_TTL_SECONDS`. -/
def cleanup_expired_states (s : StateStore) (now : Int) : StateStore :=
  s.filter (fun p => !(decide (p.2 < now - STATE_TTL_SECONDS)))

/-- `generate_oauth_state`: purge expired entries, then record the fresh
`token` with the current time and return it (the token itself is the
abstracted random draw). -/
def generate_oauth_state (s : StateStore) (token : String) (now : Int) : StateStore :=
  setKey (cleanup_expired_states s now) token now

/-- `validate_oauth_state`: false immediately for a falsy (`None`/empty)
token; otherwise purge expired entries, reject an absent token, remove
and reject a stale one (defensive double-check), and remove-and-accept a
fresh one (single use).  Returns the flag and the updated store. -/
def validate_oauth_state (s : StateStore) (state : Option String) (now : Int) :
    Bool × StateStore :=
  match state with
  | none => (false, s)
  | some st =>
    if st = "" then (false, s)
    else
      let s1 := cleanup_expired_states s now
      match lookupState s1 st with
      | none => (false, s1)
      | some ts =>
        if now - ts > STATE_TTL_SECONDS then (false, eraseKey s1 st)
        else (true, eraseKey s1 st)

theorem lookupState_eraseKey (s : StateStore) (k : String) :
    lookupState (eraseKey s k) k = none := by
  induction s with
  | nil => rfl
  | cons a rest ih =>
    rcases a with ⟨ak, av⟩
    by_cases h : ak = k
    · simp only [eraseKey, List.filter_cons] at *
      simpa [h] using ih
    · simp only [eraseKey, List.filter_cons] at *
      simpa [h, lookupState] using ih

theorem lookupState_filter_none (p : String × Int → Bool) (s : StateStore) (k : String)
    (h : lookupState s k = none) : lookupState (s.filter p) k = none := by
  induction s with
  | nil => rfl
  | cons a rest ih =>
    by_cases hk : a.1 = k
    · simp [lookupState, hk] at h
    · have h' : lookupState rest k = none := by
        simpa [lookupState, hk] using h
      by_cases hp : p a = true
      · simpa [List.filter, hp, lookupState, hk] using ih h'
      · simp only [List.filter, Bool.not_eq_true] at hp ⊢
        rw [hp]
        exact ih h'

theorem lookupState_append_none (a b : StateStore) (k : String)
    (h : lookupState a k = none) : lookupState (a ++ b) k = lookupState b k := by
  induction a with
  | nil => rfl
  | cons x rest ih =>
    by_cases hk : x.1 = k
    · simp [lookupState, hk] at h
    · have h' : lookupState rest k = none := by
        simpa [lookupState, hk] using h
      simpa [lookupState, hk] using ih h'

theorem mem_cleanup_fresh (s : StateStore) (now : Int) (p : String × Int)
    (h : p ∈ cleanup_expired_states s now) : now - p.2 ≤ STATE_TTL_SECONDS := by
  have := (List.mem_filter.mp h).2
  simp only [Bool.not_eq_true', decide_eq_false_iff_not, not_lt] at this
  omega

theorem mem_eraseKey (s : StateStore) (k : String) (p : String × Int)
    (h : p ∈ eraseKey s k) : p ∈ s :=
  (List.mem_filter.mp h).1

theorem lookupState_cleanup_setKey (s : StateStore) (token : String) (t now : Int)
    (hkeep : ¬ (t < now - STATE_TTL_SECONDS)) :
    lookupState (cleanup_expired_states (setKey s token t) now) token = some t := by
  have hsplit : cleanup_expired_states (setKey s token t) now
      = (eraseKey s token).filter (fun p => !(decide (p.2 < now - STATE_TTL_SECONDS)))
        ++ [(token, t)] := by
    simp [cleanup_expired_states, setKey, List.filter_append, List.filter, hkeep]
  rw [hsplit, lookupState_append_none]
  · simp [lookupState]
  · exact lookupState_filter_none _ _ _ (lookupState_eraseKey s token)

theorem lookupState_cleanup_eraseKey (s : StateStore) (token : String) (now : Int) :
    lookupState (cleanup_expired_states (eraseKey s token) now) token = none :=
  lookupState_filter_none _ _ _ (lookupState_eraseKey s token)

theorem mem_validate_store (s : StateStore) (tok : String) (now : Int) (hne : tok ≠ "")
    (p : String × Int) (hp : p ∈ (validate_oauth_state s (some tok) now).2) :
    p ∈ cleanup_expired_states s now := by
  simp only [validate_oauth_state, if_neg hne] at hp
  split at hp
  · simpa using hp
  · split at hp
    · exact mem_eraseKey _ tok p (by simpa using hp)
    · exact mem_eraseKey _ tok p (by simpa using hp)

end StravaMCP

namespace StravaMCP

/-- C3: a state token recorded by `generate` at `tgen` validates exactly
once: a first `validate` at any `t1` within the TTL window returns true,
and an immediately following second `validate` of the same token (same
time `t1`) returns false — validation is consuming. -/
theorem C3_single_use (s : StateStore) (tok : String) (tgen t1 : Int)
    (hne : tok ≠ "") (h1 : tgen ≤ t1) (h2 : t1 - tgen ≤ STATE_TTL_SECONDS) :
    (validate_oauth_state (generate_oauth_state s tok tgen) (some tok) t1).1 = true
    ∧ (validate_oauth_state
        (validate_oauth_state (generate_oauth_state s tok tgen) (some tok) t1).2
        (some tok) t1).1 = false := by
  have hkeep : ¬ (tgen < t1 - STATE_TTL_SECONDS) := by omega
  have hlook : lookupState
      (cleanup_expired_states (generate_oauth_state s tok tgen) t1) tok = some tgen := by
    simpa [generate_oauth_state] using
      lookupState_cleanup_setKey (cleanup_expired_states s tgen) tok tgen t1 hkeep
  have hfresh : ¬ (t1 - tgen > STATE_TTL_SECONDS) := by omega
  have hfirst : validate_oauth_state (generate_oauth_state s tok tgen) (some tok) t1
      = (true, eraseKey (cleanup_expired_states (generate_oauth_state s tok tgen) t1) tok) := by
    simp [validate_oauth_state, hne, hlook, hfresh]
  refine ⟨by rw [hfirst], ?_⟩
  rw [hfirst]
  have hlook2 : lookupState
      (cleanup_expired_states
        (eraseKey (cleanup_expired_states (generate_oauth_state s tok tgen) t1) tok) t1)
      tok = none :=
    lookupState_cleanup_eraseKey _ tok t1
  simp [validate_oauth_state, hne, hlook2]

/-- C3 witness: concrete empty store, token generated at time 0,
validated twice at time 10. -/
theorem C3_single_use_witness :
    (validate_oauth_state (generate_oauth_state [] "tok" 0) (some "tok") 10).1 = true
    ∧ (validate_oauth_state
        (validate_oauth_state (generate_oauth_state [] "tok" 0) (some "tok") 10).2
        (some "tok") 10).1 = false :=
  C3_single_use [] "tok" 0 10 (by decide) (by decide) (by decide)

/-- C4: for every pending-state collection and time, `validate(None)`
and `validate("")` both return false and leave the collection exactly as
it was — no entry added, removed, or purged. -/
theorem C4_falsy_state_no_mutation (s : StateStore) (now : Int) :
    validate_oauth_state s none now = (false, s)
    ∧ validate_oauth_state s (some "") now = (false, s) := by
  constructor
  · rfl
  · simp [validate_oauth_state]

/-- C10: after a completed `generate`, and after a completed `validate`
with a non-empty token, every entry remaining in the pending-state
collection has age at most the TTL with respect to the call time:
strictly older entries are always purged. -/
theorem C10_ttl_invariant (s : StateStore) (tok : String) (now : Int)
    (hne : tok ≠ "") :
    (∀ p ∈ generate_oauth_state s tok now, now - p.2 ≤ STATE_TTL_SECONDS)
    ∧ (∀ p ∈ (validate_oauth_state s (some tok) now).2, now - p.2 ≤ STATE_TTL_SECONDS) := by
  constructor
  · intro p hp
    rcases List.mem_append.mp hp with hl | hr
    · exact mem_cleanup_fresh s now p (mem_eraseKey _ tok p hl)
    · have : p = (tok, now) := by simpa using hr
      subst this
      simp [STATE_TTL_SECONDS]
  · intro p hp
    exact mem_cleanup_fresh s now p (mem_validate_store s tok now hne p hp)

/-- C10 witness: TTL invariant at a concrete store holding one stale and
one fresh entry, token "a", time 1000. -/
theorem C10_ttl_invariant_witness :
    (∀ p ∈ generate_oauth_state [("old", 0), ("new", 900)] "a" 1000,
      (1000 : Int) - p.2 ≤ STATE_TTL_SECONDS)
    ∧ (∀ p ∈ (validate_oauth_state [("old", 0), ("new", 900)] (some "a") 1000).2,
        (1000 : Int) - p.2 ≤ STATE_TTL_SECONDS) :=
  C10_ttl_invariant [("old", 0), ("new", 900)] "a" 1000 (by decide)

end StravaMCP

namespace StravaMCP

/-! ## oauth.py — the `/strava-oauth` callback route (`logged_in`)

The route handler becomes a pure function of the query parameters, the
two pieces of shared state (pending CSRF states and the token store),
the clock, and two oracles standing for the network: the
code-for-token exchange and the athlete-profile fetch (its `try`/
`except` collapses to an `Option`: `none` when `get_athlete` raised).
Rendering a template becomes returning a `View` value. -/

/-- Python truthiness of an optional string (`if error:` / `if not
code:`): `None` and `""` are falsy. -/
def truthyStr (o : Option String) : Bool :=
  match o with
  | none => false
  | some s => s != ""

/-- Outcome of `client.exchange_code_for_token`: the token response, or
one of the exception classes the handler catches (`HTTPError` with an
optional response status, `ConnectionError`, `Timeout`, anything else
with its message). -/
inductive ExchangeOutcome where
  | success (tr : TokenResponse)
  | httpFail (status : Option Nat)
  | connFail
  | timeoutFail
  | otherFail (msg : String)
deriving DecidableEq, Repr

/-- A rendered template: `login_error.html` with its error message, or
`login_results.html` with the (possibly absent) athlete and the
`mcp_ready` flag. -/
inductive View where
  | loginError (msg : String)
  | loginResults (athlete : Option String) (mcp_ready : Bool)
deriving DecidableEq, Repr

/-- Everything observable about one callback invocation: the rendered
view, both shared-state collections afterwards, and whether the
code-for-token exchange was attempted. -/
structure CallbackResult where
  view : View
  states : StateStore
  tokens : Option TokenDict
  exchangeAttempted : Bool
deriving DecidableEq, Repr

def csrfErrorMsg : String :=
  "Invalid or expired OAuth state. This could be a CSRF attack or your session expired. Please try logging in again."

def missingCodeMsg : String :=
  "Missing authorization code. Please try logging in again."

def exchangeHttpMsg (status : Option Nat) : String :=
  match status with
  | some 400 => "Invalid or expired authorization code. Please try logging in again."
  | some 401 => "Invalid client credentials. Check your STRAVA_CLIENT_ID and STRAVA_CLIENT_SECRET."
  | _ => "Failed to exchange authorization code for tokens."

def connectFailMsg : String :=
  "Unable to connect to Strava. Please check your internet connection."

def timeoutFailMsg : String :=
  "Connection to Strava timed out. Please try again."

/-- `logged_in`: the OAuth callback.  If `error` is truthy, render it
and stop.  Validate (and consume) the CSRF state; on failure render the
CSRF error.  If `code` is falsy, render the missing-code error.
Exchange the code; any caught exception renders its mapped message.  On
success save the tokens, then best-effort fetch the athlete (failure
gives `none`) and render the results view with `mcp_ready = True`. -/
def logged_in (states : StateStore) (tokens : Option TokenDict)
    (err state code : Option String) (now : Int)
    (exchange : String → ExchangeOutcome)
    (fetchAthlete : String → Option String) : CallbackResult :=
  if truthyStr err then
    { view := View.loginError (err.getD ""), states := states,
      tokens := tokens, exchangeAttempted := false }
  else if !(validate_oauth_state states state now).1 then
    { view := View.loginError csrfErrorMsg,
      states := (validate_oauth_state states state now).2,
      tokens := tokens, exchangeAttempted := false }
  else if !truthyStr code then
    { view := View.loginError missingCodeMsg,
      states := (validate_oauth_state states state now).2,
      tokens := tokens, exchangeAttempted := false }
  else
    match exchange (code.getD "") with
    | ExchangeOutcome.success tr =>
      { view := View.loginResults (fetchAthlete tr.access_token) true,
        states := (validate_oauth_state states state now).2,
        tokens := save_tokens (token_response_to_dict tr) tokens,
        exchangeAttempted := true }
    | ExchangeOutcome.httpFail st =>
      { view := View.loginError (exchangeHttpMsg st),
        states := (validate_oauth_state states state now).2,
        tokens := tokens, exchangeAttempted := true }
    | ExchangeOutcome.connFail =>
      { view := View.loginError connectFailMsg,
        states := (validate_oauth_state states state now).2,
        tokens := tokens, exchangeAttempted := true }
    | ExchangeOutcome.timeoutFail =>
      { view := View.loginError timeoutFailMsg,
        states := (validate_oauth_state states state now).2,
        tokens := tokens, exchangeAttempted := true }
    | ExchangeOutcome.otherFail m =>
      { view := View.loginError ("An unexpected error occurred: " ++ m),
        states := (validate_oauth_state states state now).2,
        tokens := tokens, exchangeAttempted := true }

end StravaMCP

namespace StravaMCP

/-- C5, refuting input: the `error` parameter present but EMPTY
(`?error=`) is falsy in Python, so the handler does not stop: with a
fresh pending state, a code, and a succeeding exchange it consumes the
state, attempts the exchange, saves tokens, and renders the results
view — not an error view with the error message. -/
theorem C5_counterexample :
    logged_in [("s", 0)] none (some "") (some "s") (some "c") 0
      (fun _ => ExchangeOutcome.success ⟨"a", "r", 100⟩) (fun _ => none)
    = { view := View.loginResults none true,
        states := [],
        tokens := some [("access_token", TokVal.str "a"),
                        ("refresh_token", TokVal.str "r"),
                        ("expires_at", TokVal.num 100)],
        exchangeAttempted := true } := by
  decide

/-- C5 (amended): for every callback whose `error` query parameter is
present with a NON-EMPTY value, the handler renders an error view
containing that message and performs no further processing: the
pending-state collection and the Credential Store are unchanged and no
exchange is attempted. -/
theorem C5_error_short_circuits (states : StateStore) (tokens : Option TokenDict)
    (msg : String) (state code : Option String) (now : Int)
    (exchange : String → ExchangeOutcome) (fetchAthlete : String → Option String)
    (h : msg ≠ "") :
    logged_in states tokens (some msg) state code now exchange fetchAthlete
    = { view := View.loginError msg, states := states,
        tokens := tokens, exchangeAttempted := false } := by
  have ht : truthyStr (some msg) = true := by
    simp [truthyStr, h]
  simp [logged_in, ht]

/-- C5 witness: the amended theorem at `error=access_denied` with a
live pending state and a succeeding exchange available. -/
theorem C5_error_short_circuits_witness :
    logged_in [("s", 0)] none (some "access_denied") (some "s") (some "c") 0
      (fun _ => ExchangeOutcome.success ⟨"a", "r", 100⟩) (fun _ => none)
    = { view := View.loginError "access_denied", states := [("s", 0)],
        tokens := none, exchangeAttempted := false } :=
  C5_error_short_circuits [("s", 0)] none "access_denied" (some "s") (some "c") 0
    (fun _ => ExchangeOutcome.success ⟨"a", "r", 100⟩) (fun _ => none) (by decide)

/-- C6: on a callback with no error, a state that validates, a
non-empty code, and a succeeding exchange, the handler persists exactly
the TokenSet built from the provider response — whose `access_token`
matches the response — and renders the success view with
`mcp_ready = True` for EVERY athlete-fetch behaviour, in particular
when the profile fetch fails (`fetchAthlete _ = none`); the saved
tokens do not depend on the fetch outcome. -/
theorem C6_exchange_persists (states : StateStore) (tokens : Option TokenDict)
    (tok code : String) (now : Int) (tr : TokenResponse)
    (exchange : String → ExchangeOutcome) (fetchAthlete : String → Option String)
    (hvalid : (validate_oauth_state states (some tok) now).1 = true)
    (hcode : code ≠ "") (hex : exchange code = ExchangeOutcome.success tr) :
    logged_in states tokens none (some tok) (some code) now exchange fetchAthlete
    = { view := View.loginResults (fetchAthlete tr.access_token) true,
        states := (validate_oauth_state states (some tok) now).2,
        tokens := some (token_response_to_dict tr),
        exchangeAttempted := true }
    ∧ lookupKey (token_response_to_dict tr) "access_token"
      = some (TokVal.str tr.access_token) := by
  constructor
  · have hc : truthyStr (some code) = true := by
      simp [truthyStr, hcode]
    simp [logged_in, truthyStr, hvalid, hc, hex, save_tokens, hcode]
  · simp [token_response_to_dict, lookupKey]

/-- C6 witness: concrete callback with one fresh pending state, a
succeeding exchange, and a FAILING profile fetch; the tokens are saved
and success is still reported. -/
theorem C6_exchange_persists_witness :
    (logged_in [("s", 0)] none none (some "s") (some "c") 0
      (fun _ => ExchangeOutcome.success ⟨"a", "r", 100⟩) (fun _ => none)
    = { view := View.loginResults none true,
        states := (validate_oauth_state [("s", 0)] (some "s") 0).2,
        tokens := some (token_response_to_dict ⟨"a", "r", 100⟩),
        exchangeAttempted := true }
    ∧ lookupKey (token_response_to_dict ⟨"a", "r", 100⟩) "access_token"
      = some (TokVal.str "a")) :=
  C6_exchange_persists [("s", 0)] none "s" "c" 0 ⟨"a", "r", 100⟩
    (fun _ => ExchangeOutcome.success ⟨"a", "r", 100⟩) (fun _ => none)
    (by decide) (by decide) rfl

end StravaMCP

namespace StravaMCP

/-! ## server.py — authenticated client factory and error translation

`get_authenticated_client` runs under the refresh lock; here the token
store is threaded explicitly and the provider's `refresh_access_token`
is an oracle.  Raised exceptions become `Except.error` of an exception
value, and the `handle_strava_errors` decorator becomes a function from
that exception value to the structured error dict it returns. -/

/-- The exception classes distinguished by `handle_strava_errors`:
`ValueError`, `requests.exceptions.HTTPError` (with the optional
response status), `ConnectionError`, `Timeout`, a propagated dict/type
error, and any other exception with its type name and message. -/
inductive StravaExc where
  | valueError (msg : String)
  | httpFail (status : Option Nat) (msg : String)
  | connFail
  | timeoutFail
  | pyExc (e : PyErr)
  | otherExc (tyName msg : String)
deriving DecidableEq, Repr

/-- The `stravalib.Client` object built at the end of
`get_authenticated_client` (`token_expires` is `int(expires_at)`,
truncation toward zero). -/
structure ClientObj where
  access_token : TokVal
  refresh_token : TokVal
  token_expires : Int
deriving DecidableEq, Repr

/-- Outcome of the provider's `refresh_access_token` call. -/
inductive RefreshOutcome where
  | success (tr : TokenResponse)
  | fail (e : StravaExc)
deriving DecidableEq, Repr

def notAuthenticatedMsg : String :=
  "Not authenticated. Use get_auth_url() to get the authorization URL, then authenticate() with the code from the callback."

/-- Building `Client(access_token=..., refresh_token=..., token_expires=int(...))`
from a token dict; absent keys raise `KeyError`, a non-numeric expiry a
`TypeError` from `int`. -/
def client_from_tokens (tokens : TokenDict) : Except PyErr ClientObj :=
  match lookupKey tokens "access_token", lookupKey tokens "refresh_token",
        lookupKey tokens "expires_at" with
  | some a, some r, some (TokVal.num q) =>
    Except.ok { access_token := a, refresh_token := r, token_expires := q.num.tdiv q.den }
  | some _, some _, some (TokVal.str _) => Except.error PyErr.typeError
  | none, _, _ => Except.error (PyErr.keyError "access_token")
  | _, none, _ => Except.error (PyErr.keyError "refresh_token")
  | _, _, none => Except.error (PyErr.keyError "expires_at")

/-- `get_authenticated_client`: load the tokens; raise `ValueError` when
absent or missing `refresh_token`; refresh-and-save when expired; build
the client from the (possibly refreshed) tokens.  Returns the token
store afterwards together with the client or the raised exception. -/
def get_authenticated_client (store : Option TokenDict) (now : Rat)
    (refresh : TokVal → RefreshOutcome) :
    Option TokenDict × Except StravaExc ClientObj :=
  match load_tokens store with
  | none => (store, Except.error (StravaExc.valueError notAuthenticatedMsg))
  | some tokens =>
    match lookupKey tokens "refresh_token" with
    | none => (store, Except.error (StravaExc.valueError notAuthenticatedMsg))
    | some rtok =>
      match is_token_expired tokens now with
      | Except.error e => (store, Except.error (StravaExc.pyExc e))
      | Except.ok true =>
        match refresh rtok with
        | RefreshOutcome.fail e => (store, Except.error e)
        | RefreshOutcome.success tr =>
          let newTokens := token_response_to_dict tr
          let store1 := save_tokens newTokens store
          match client_from_tokens newTokens with
          | Except.ok c => (store1, Except.ok c)
          | Except.error e => (store1, Except.error (StravaExc.pyExc e))
      | Except.ok false =>
        match client_from_tokens tokens with
        | Except.ok c => (store, Except.ok c)
        | Except.error e => (store, Except.error (StravaExc.pyExc e))

/-- The structured error dict a tool call returns; only the fields the
code actually sets in each branch are non-`none`. -/
structure ErrResp where
  error : String
  message : String
  action : Option String := none
  retry_after_seconds : Option Nat := none
  status_code : Option (Option Nat) := none
  exc_type : Option String := none
deriving DecidableEq, Repr

def pyErrTypeName : PyErr → String
  | PyErr.keyError _ => "KeyError"
  | PyErr.typeError => "TypeError"

def pyErrMessage : PyErr → String
  | PyErr.keyError k => k
  | PyErr.typeError => "unsupported operand type"

/-- `handle_strava_errors`: maps each caught exception to the structured
error response the decorated tool returns. -/
def handle_strava_errors (e : StravaExc) : ErrResp :=
  match e with
  | StravaExc.valueError msg =>
    { error := "validation_error", message := msg,
      action := some "Check authentication status with get_auth_status()" }
  | StravaExc.httpFail (some 429) _ =>
    { error := "rate_limited", message := "Strava API rate limit exceeded",
      action := some "Wait 15 minutes before retrying",
      retry_after_seconds := some 900 }
  | StravaExc.httpFail (some 401) _ =>
    { error := "unauthorized", message := "Access token invalid or revoked",
      action := some "Re-authenticate using get_auth_url()" }
  | StravaExc.httpFail (some 404) _ =>
    { error := "not_found", message := "Resource not found",
      action := some "Verify the ID exists and you have access" }
  | StravaExc.httpFail (some 403) _ =>
    { error := "forbidden", message := "Access denied to this resource",
      action := some "Check if you have permission to access this data" }
  | StravaExc.httpFail st msg =>
    { error := "api_error", message := msg, status_code := some st }
  | StravaExc.connFail =>
    { error := "network_error", message := "Unable to connect to Strava API",
      action := some "Check your internet connection" }
  | StravaExc.timeoutFail =>
    { error := "timeout", message := "Strava API request timed out",
      action := some "Try again in a moment" }
  | StravaExc.pyExc pe =>
    { error := "unexpected_error", message := pyErrMessage pe,
      exc_type := some (pyErrTypeName pe) }
  | StravaExc.otherExc ty msg =>
    { error := "unexpected_error", message := msg, exc_type := some ty }

/-- A tool call that needs a client, as seen at the tool boundary: the
raised exception, if any, is translated by `handle_strava_errors`. -/
def get_client_tool (store : Option TokenDict) (now : Rat)
    (refresh : TokVal → RefreshOutcome) :
    Option TokenDict × (ClientObj ⊕ ErrResp) :=
  match get_authenticated_client store now refresh with
  | (store1, Except.ok c) => (store1, Sum.inl c)
  | (store1, Except.error e) => (store1, Sum.inr (handle_strava_errors e))

end StravaMCP

namespace StravaMCP

/-- C8, refuting input: with an empty Credential Store the tool-level
failure is tagged `validation_error` — the code has no separate
`authentication_required` kind, so the error is NOT distinguished from a
validation error. -/
theorem C8_counterexample :
    (get_client_tool none 0 (fun _ => RefreshOutcome.fail StravaExc.connFail)).2
      = Sum.inr { error := "validation_error", message := notAuthenticatedMsg,
                  action := some "Check authentication status with get_auth_status()" }
    ∧ "validation_error" ≠ "authentication_required" := by
  constructor
  · rfl
  · decide

/-- C8 (amended): whenever the Credential Store holds no TokenSet or
the stored set lacks a `refresh_token`, `get_authenticated_client`
raises `ValueError` with the message instructing the caller to run the
authorization flow, the tool boundary reports it with kind
`validation_error` (the taxonomy has no separate `authentication_required`
kind), and the store is left unchanged. -/
theorem C8_not_authenticated (store : Option TokenDict) (now : Rat)
    (refresh : TokVal → RefreshOutcome)
    (h : load_tokens store = none
      ∨ ∃ tokens, load_tokens store = some tokens
          ∧ lookupKey tokens "refresh_token" = none) :
    get_client_tool store now refresh
      = (store,
         Sum.inr { error := "validation_error", message := notAuthenticatedMsg,
                   action := some "Check authentication status with get_auth_status()" }) := by
  rcases h with h | ⟨tokens, hload, hrt⟩
  · simp [get_client_tool, get_authenticated_client, h, handle_strava_errors]
  · simp [get_client_tool, get_authenticated_client, hload, hrt, handle_strava_errors]

/-- C8 witness: the amended theorem at the never-authenticated store. -/
theorem C8_not_authenticated_witness :
    get_client_tool none 0 (fun _ => RefreshOutcome.fail StravaExc.connFail)
      = (none,
         Sum.inr { error := "validation_error", message := notAuthenticatedMsg,
                   action := some "Check authentication status with get_auth_status()" }) :=
  C8_not_authenticated none 0 (fun _ => RefreshOutcome.fail StravaExc.connFail)
    (Or.inl rfl)

end StravaMCP

namespace StravaMCP

/-- C1, sample set at the boundary: a TokenSet with `expires_at = 5`
queried at `now = 5` is reported NOT expired (`expires_at < now` is
strict), refuting the claim that `now >= expires_at` is expired. -/
theorem C1_counterexample :
    is_token_expired
      [("access_token", TokVal.str "a"), ("refresh_token", TokVal.str "b"),
       ("expires_at", TokVal.num 5)] 5 = Except.ok false
    ∧ is_token_expired
        [("access_token", TokVal.str "a"), ("refresh_token", TokVal.str "b"),
         ("expires_at", TokVal.num 5)] 5 ≠ Except.ok true := by
  constructor
  · decide
  · decide

/-- C1 (amended): for every TokenSet whose `expires_at` field holds the
number `e` and every timestamp `now`, `is_token_expired` returns true
iff `now > expires_at` (strict); at the boundary, a set with
`expires_at` equal to `now` is NOT expired, and a set with `expires_at`
equal to `now + 1` is not expired. -/
theorem C1_is_expired_strict (tokens : TokenDict) (e now : Rat)
    (h : lookupKey tokens "expires_at" = some (TokVal.num e)) :
    (is_token_expired tokens now = Except.ok true ↔ e < now)
    ∧ is_token_expired tokens e = Except.ok false
    ∧ is_token_expired tokens (e - 1) = Except.ok false := by
  refine ⟨?_, ?_, ?_⟩
  · simp [is_token_expired, h]
  · simp [is_token_expired, h]
  · simp only [is_token_expired, h]
    have : ¬ (e < e - 1) := by linarith
    simp [this]

/-- C1 witness: instantiating the amended theorem at a concrete set with
`expires_at = 10` and `now = 12`. -/
theorem C1_is_expired_strict_witness :
    (is_token_expired [("expires_at", TokVal.num 10)] 12 = Except.ok true ↔ (10 : Rat) < 12)
    ∧ is_token_expired [("expires_at", TokVal.num 10)] 10 = Except.ok false
    ∧ is_token_expired [("expires_at", TokVal.num 10)] (10 - 1) = Except.ok false :=
  C1_is_expired_strict [("expires_at", TokVal.num 10)] 10 12 (by decide)

/-- C2: on a TokenSet with no `expires_at` key the code raises
`KeyError` instead of conservatively returning true — evaluating the
embedded code at the failing input from the repository's own test
(`tests/test_tokens.py::test_missing_expires_at_returns_true`). -/
theorem C2_missing_expiry_raises :
    is_token_expired [("access_token", TokVal.str "test")] 100
      = Except.error (PyErr.keyError "expires_at")
    ∧ is_token_expired [("expires_at", TokVal.num 0)] 100 = Except.ok true := by
  constructor
  · decide
  · decide

/-- C9: saving the empty dictionary and loading back yields the absent
marker `None`, not the empty dictionary, because `load_tokens` treats
any falsy stored value (`if _tokens`) as absent. -/
theorem C9_empty_dict_loads_none (store : Option TokenDict) :
    load_tokens (save_tokens [] store) = none := by
  simp [load_tokens, save_tokens]

/-- C7: for every valid TokenSet `t`, `save` then `load` returns `t`
(round-trip), and the loaded value is a copy: mutating it with any `f`
yields `f t` locally while a later `load` still observes `t`. -/
theorem C7_round_trip (store : Option TokenDict) (t : TokenDict)
    (f : TokenDict → TokenDict) (h : validTokenSet t = true) :
    load_tokens (save_tokens t store) = some t
    ∧ (mutate_copy_then_reload (save_tokens t store) f).1 = some (f t)
    ∧ (mutate_copy_then_reload (save_tokens t store) f).2 = some t := by
  have hne : t ≠ [] := validTokenSet_ne_nil t h
  have hload : load_tokens (save_tokens t store) = some t := by
    simp [load_tokens, save_tokens, List.isEmpty_iff, hne]
  exact ⟨hload, by simp [mutate_copy_then_reload, hload], by simp [mutate_copy_then_reload, hload]⟩

/-- C7 witness: round-trip and copy isolation at a concrete valid
TokenSet, with the mutation erasing the whole dict. -/
theorem C7_round_trip_witness :
    load_tokens (save_tokens
      [("access_token", TokVal.str "a"), ("refresh_token", TokVal.str "b"),
       ("expires_at", TokVal.num 123)] none)
      = some [("access_token", TokVal.str "a"), ("refresh_token", TokVal.str "b"),
              ("expires_at", TokVal.num 123)]
    ∧ (mutate_copy_then_reload (save_tokens
        [("access_token", TokVal.str "a"), ("refresh_token", TokVal.str "b"),
         ("expires_at", TokVal.num 123)] none) (fun _ => [])).1 = some []
    ∧ (mutate_copy_then_reload (save_tokens
        [("access_token", TokVal.str "a"), ("refresh_token", TokVal.str "b"),
         ("expires_at", TokVal.num 123)] none) (fun _ => [])).2
      = some [("access_token", TokVal.str "a"), ("refresh_token", TokVal.str "b"),
              ("expires_at", TokVal.num 123)] :=
  C7_round_trip none
    [("access_token", TokVal.str "a"), ("refresh_token", TokVal.str "b"),
     ("expires_at", TokVal.num 123)] (fun _ => []) (by decide)

end StravaMCP
